import Mathlib

/-!
Verification development for the web-archive-tool server (`src/main.py`).

The server tracks web-archive jobs in a single SQLite table `archive_jobs`,
keyed by `job_id`.  Request handlers (`create_archive`, `retry_archive`,
`stop_job`, `delete_job`, `delete_archive`, `upload_to_gcs`) and background
tasks (`run_browsertrix_crawler` with its nested `monitor_container_progress`
and `handle_container_completion`, and `upload_archive_to_gcs`) mutate the
table through the `SQLiteJobManager` operations.

The embedding below models:
* a table row as a record of SQLite `Value`s (SQLite is dynamically typed,
  and the Python code reads rows back as dicts of column name to value);
* the `SQLiteJobManager` operations (`get_job`, `update_job`, `delete_job`,
  `get_all_jobs`) as pure functions over a list of rows;
* each HTTP handler as a function from the store (plus the relevant
  environment flags) to a response, a new store, and a flag recording
  whether a background task was scheduled;
* the crawl-supervision and GCS-upload background tasks as functions over
  the store together with an abstract description of the externally
  observed events (container exit code, artifact files found, SDK errors),
  since the container runtime, the filesystem and the GCS SDK are external
  to the repository;
* the byte-range logic of `serve_archive` over an embedding of the Python
  string operations (`str.replace`, `str.split`, `int`) used to parse the
  `Range` header.
-/

namespace WebArchive

/-- SQLite values as they appear in rows of the `archive_jobs` table: `NULL`,
integers, or text.  SQLite is dynamically typed, and the Python code reads
rows back as tuples of such values. -/
inductive Value where
  | null : Value
  | int (n : Int) : Value
  | str (s : String) : Value
deriving DecidableEq, Repr

/-- Python truthiness of a stored value, as used by checks such as
`if existing_job.get("gcs_url")` and `if not existing_job.get("local_path")`
in `main.py`: `None` and `0` and the empty string are falsy. -/
def isTruthy : Value → Bool
  | Value.null => false
  | Value.int n => n != 0
  | Value.str s => s != ""

/-- A row of the `archive_jobs` table (schema from `init_db` in `main.py`,
including the columns added by the `ALTER TABLE` migration calls:
`gcs_url`, `gcs_error`, `pages_archived`, `current_depth`). -/
structure Job where
  job_id : Value
  url : Value
  status : Value
  progress : Value
  created_at : Value
  completed_at : Value
  archive_path : Value
  local_path : Value
  crawler_type : Value
  crawler_reason : Value
  complexity_score : Value
  gcs_url : Value
  gcs_error : Value
  pages_archived : Value
  current_depth : Value
deriving DecidableEq, Repr

/-- Column names of the `archive_jobs` table, used as the keys of the
`updates` dict passed to `SQLiteJobManager.update_job`. -/
inductive Col where
  | job_id | url | status | progress | created_at
  | completed_at | archive_path | local_path | crawler_type | crawler_reason
  | complexity_score | gcs_url | gcs_error | pages_archived | current_depth
deriving DecidableEq, Repr

/-- Read one column of a row. -/
def getCol : Col → Job → Value
  | Col.job_id, j => j.job_id
  | Col.url, j => j.url
  | Col.status, j => j.status
  | Col.progress, j => j.progress
  | Col.created_at, j => j.created_at
  | Col.completed_at, j => j.completed_at
  | Col.archive_path, j => j.archive_path
  | Col.local_path, j => j.local_path
  | Col.crawler_type, j => j.crawler_type
  | Col.crawler_reason, j => j.crawler_reason
  | Col.complexity_score, j => j.complexity_score
  | Col.gcs_url, j => j.gcs_url
  | Col.gcs_error, j => j.gcs_error
  | Col.pages_archived, j => j.pages_archived
  | Col.current_depth, j => j.current_depth

/-- Write one column of a row (one `column = ?` assignment of the generated
`UPDATE archive_jobs SET ...` statement). -/
def setCol : Col → Value → Job → Job
  | Col.job_id, v, j => { j with job_id := v }
  | Col.url, v, j => { j with url := v }
  | Col.status, v, j => { j with status := v }
  | Col.progress, v, j => { j with progress := v }
  | Col.created_at, v, j => { j with created_at := v }
  | Col.completed_at, v, j => { j with completed_at := v }
  | Col.archive_path, v, j => { j with archive_path := v }
  | Col.local_path, v, j => { j with local_path := v }
  | Col.crawler_type, v, j => { j with crawler_type := v }
  | Col.crawler_reason, v, j => { j with crawler_reason := v }
  | Col.complexity_score, v, j => { j with complexity_score := v }
  | Col.gcs_url, v, j => { j with gcs_url := v }
  | Col.gcs_error, v, j => { j with gcs_error := v }
  | Col.pages_archived, v, j => { j with pages_archived := v }
  | Col.current_depth, v, j => { j with current_depth := v }

/-- Apply the `SET k1 = ?, k2 = ?, ...` assignments of an `UPDATE` statement
to a single row.  The assignments come from a Python dict, so each column
appears at most once; applying them left to right matches the generated SQL. -/
def applyUpdates (us : List (Col × Value)) (j : Job) : Job :=
  us.foldl (fun acc u => setCol u.1 u.2 acc) j

/-- `SQLiteJobManager.get_job`: `SELECT * FROM archive_jobs WHERE job_id = ?`
followed by `fetchone()` - the first row whose `job_id` column equals the
requested id. -/
def get_job (store : List Job) (id : String) : Option Job :=
  store.find? fun j => decide (j.job_id = Value.str id)

/-- `SQLiteJobManager.update_job`:
`UPDATE archive_jobs SET {set_clause} WHERE job_id = ?` - every row whose
`job_id` equals the requested id receives the assignments, all other rows are
untouched. -/
def update_job (store : List Job) (id : String) (us : List (Col × Value)) : List Job :=
  store.map fun j => if j.job_id = Value.str id then applyUpdates us j else j

/-- `SQLiteJobManager.delete_job`:
`DELETE FROM archive_jobs WHERE job_id = ?`. -/
def delete_row (store : List Job) (id : String) : List Job :=
  store.filter fun j => decide (j.job_id ≠ Value.str id)

/-- Python `status in [...]` membership test on the `status` column, as in
`existing_job["status"] not in ["started", "crawling", ...]`. -/
def statusIn (j : Job) (ss : List String) : Bool :=
  ss.any fun s => decide (j.status = Value.str s)

/-- HTTP error responses raised by the handlers via `HTTPException`:
404 (unknown job id), 400 (request-validation error), 503 (infrastructure
unavailable).  The string is the `detail` message from the source. -/
inductive ApiErr where
  | notFound (detail : String)
  | badRequest (detail : String)
  | unavailable (detail : String)
deriving DecidableEq, Repr

/-- Result of running one request handler: the HTTP response (`.ok body` or
an `ApiErr`), the job table afterwards, and whether the handler scheduled a
background task (`background_tasks.add_task` / `asyncio.create_task`). -/
structure HandlerOut where
  resp : Except ApiErr String
  store : List Job
  taskStarted : Bool
deriving Repr

/-- Row inserted by `create_archive` (`POST /api/archive`) for a fresh job.
`create_job` only inserts the first eleven columns; `gcs_url` and `gcs_error`
take the schema default `NULL`, `pages_archived` defaults to `0` and
`current_depth` defaults to `1`. -/
def freshJob (id url now : String) : Job :=
  { job_id := Value.str id
    url := Value.str url
    status := Value.str "started"
    progress := Value.int 0
    created_at := Value.str now
    completed_at := Value.null
    archive_path := Value.null
    local_path := Value.null
    crawler_type := Value.str "browsertrix"
    crawler_reason := Value.str "High-quality web archiving"
    complexity_score := Value.int 1
    gcs_url := Value.null
    gcs_error := Value.null
    pages_archived := Value.int 0
    current_depth := Value.int 1 }

/-- The `updates` dict of `retry_archive`: reset to the restart state. -/
def retryUpdates (now : String) : List (Col × Value) :=
  [(Col.status, Value.str "started"),
   (Col.progress, Value.int 0),
   (Col.created_at, Value.str now),
   (Col.completed_at, Value.null),
   (Col.archive_path, Value.null),
   (Col.local_path, Value.null),
   (Col.crawler_type, Value.str "browsertrix"),
   (Col.crawler_reason, Value.str "Professional web archiving with browsertrix-crawler")]

/-- `retry_archive` (`POST /api/retry/{job_id}`): 503 when the Docker client
is unavailable, 404 when the job does not exist; otherwise the row is reset
via `retryUpdates` and a new `run_browsertrix_crawler` task is scheduled.
The handler performs no check on the job's current status. -/
def retry_archive (dockerAvailable : Bool) (store : List Job) (id now : String) : HandlerOut :=
  if ¬ dockerAvailable then
    ⟨Except.error (ApiErr.unavailable
        "Docker is not available. Please ensure Docker is running and accessible."),
      store, false⟩
  else
    match get_job store id with
    | none => ⟨Except.error (ApiErr.notFound "Job not found"), store, false⟩
    | some _ => ⟨Except.ok "restarted", update_job store id (retryUpdates now), true⟩

/-- `delete_job` handler (`DELETE /api/delete/{job_id}`): 404 when the job
does not exist, 400 unless the status is exactly `failed`; otherwise the row
is removed.  No background task is ever scheduled. -/
def delete_job_api (store : List Job) (id : String) : HandlerOut :=
  match get_job store id with
  | none => ⟨Except.error (ApiErr.notFound "Job not found"), store, false⟩
  | some j =>
    if ¬ j.status = Value.str "failed" then
      ⟨Except.error (ApiErr.badRequest "Only failed jobs can be deleted"), store, false⟩
    else
      ⟨Except.ok "Job deleted successfully", delete_row store id, false⟩

/-- `delete_archive` handler (`DELETE /api/delete-archive/{job_id}`): 404 when
the job does not exist, 400 unless the status is one of
`completed`/`failed`/`gcs_upload_failed`/`stopped`; otherwise the local and
remote artifacts are removed best-effort (external filesystem and GCS calls,
not modelled) and the row is deleted.  The 500 path of a database failure
during the final delete is not modelled. -/
def delete_archive_api (store : List Job) (id : String) : HandlerOut :=
  match get_job store id with
  | none => ⟨Except.error (ApiErr.notFound "Job not found"), store, false⟩
  | some j =>
    if ¬ statusIn j ["completed", "failed", "gcs_upload_failed", "stopped"] then
      ⟨Except.error (ApiErr.badRequest
          "Only completed, failed, or stopped jobs can be deleted"), store, false⟩
    else
      ⟨Except.ok "Archive deletion completed", delete_row store id, false⟩

/-- GCS-related environment of the server process: whether the
`google.cloud.storage` library is importable, and whether the
`GOOGLE_APPLICATION_CREDENTIALS` and `GCS_BUCKET` environment variables are
set (truthy). -/
structure GcsEnv where
  libInstalled : Bool
  credsConfigured : Bool
  bucketConfigured : Bool
deriving DecidableEq, Repr

/-- `upload_to_gcs` handler (`POST /api/upload-gcs/{job_id}`): checks in
source order - 404 unknown job, 400 unless status is `completed` or
`gcs_upload_failed`, 400 when `gcs_url` is already truthy, 400 when
`local_path` is not truthy, 503 when the GCS library is missing, 503 when
neither `GOOGLE_APPLICATION_CREDENTIALS` nor `GCS_BUCKET` is set; only then
is the `upload_archive_to_gcs` background task scheduled.  The handler
itself never writes to the store. -/
def upload_to_gcs (env : GcsEnv) (store : List Job) (id : String) : HandlerOut :=
  match get_job store id with
  | none => ⟨Except.error (ApiErr.notFound "Job not found"), store, false⟩
  | some j =>
    if ¬ statusIn j ["completed", "gcs_upload_failed"] then
      ⟨Except.error (ApiErr.badRequest "Only completed jobs can be uploaded to GCS"),
        store, false⟩
    else if isTruthy j.gcs_url then
      ⟨Except.error (ApiErr.badRequest "Archive already uploaded to GCS"), store, false⟩
    else if ¬ isTruthy j.local_path then
      ⟨Except.error (ApiErr.badRequest "No local archive file found"), store, false⟩
    else if ¬ env.libInstalled then
      ⟨Except.error (ApiErr.unavailable
          "Google Cloud Storage library not installed. Run: pip install google-cloud-storage"),
        store, false⟩
    else if ¬ env.credsConfigured ∧ ¬ env.bucketConfigured then
      ⟨Except.error (ApiErr.unavailable
          "Google Cloud Storage is not configured. Please set GOOGLE_APPLICATION_CREDENTIALS and GCS_BUCKET environment variables."),
        store, false⟩
    else
      ⟨Except.ok "GCS upload started", store, true⟩

/-- Externally observed outcome of the GCS SDK calls made by
`upload_archive_to_gcs`, in source order: `storage.Client()` may raise,
`blob.upload_from_filename` may raise, `blob.make_public` may raise, or the
whole sequence succeeds and `blob.public_url` is returned. -/
inductive GcsUploadExt where
  | clientRaise (msg : String)
  | uploadRaise (msg : String)
  | makePublicRaise (msg : String)
  | ok (publicUrl : String)
deriving DecidableEq, Repr

/-- Failure epilogue of `upload_archive_to_gcs`: the outer `except` clause
records `status = gcs_upload_failed` and the error message. -/
def gcsFail (store : List Job) (id msg : String) : List Job :=
  update_job store id [(Col.status, Value.str "gcs_upload_failed"), (Col.gcs_error, Value.str msg)]

/-- `upload_archive_to_gcs` background task: sets `status = uploading_gcs`,
then re-checks the library and the credentials/bucket configuration (raising
into the failure epilogue), updates `progress` to 50 before the upload and to
90 before `make_public`, and on success sets `status = completed` together
with `gcs_url`.  Every inner exception is re-raised with the prefix
`"GCS upload failed: "` and lands in the failure epilogue. -/
def upload_archive_to_gcs (env : GcsEnv) (ext : GcsUploadExt)
    (store : List Job) (id : String) : List Job :=
  let s1 := update_job store id [(Col.status, Value.str "uploading_gcs")]
  if ¬ env.libInstalled then
    gcsFail s1 id "Google Cloud Storage library not installed. Run: pip install google-cloud-storage"
  else if ¬ env.credsConfigured ∧ ¬ env.bucketConfigured then
    gcsFail s1 id "GCS upload failed: GCS credentials or bucket not configured"
  else
    match ext with
    | GcsUploadExt.clientRaise m => gcsFail s1 id ("GCS upload failed: " ++ m)
    | GcsUploadExt.uploadRaise m =>
      gcsFail (update_job s1 id [(Col.progress, Value.int 50)]) id ("GCS upload failed: " ++ m)
    | GcsUploadExt.makePublicRaise m =>
      gcsFail (update_job (update_job s1 id [(Col.progress, Value.int 50)]) id
          [(Col.progress, Value.int 90)]) id ("GCS upload failed: " ++ m)
    | GcsUploadExt.ok url =>
      update_job (update_job (update_job s1 id [(Col.progress, Value.int 50)]) id
          [(Col.progress, Value.int 90)]) id
        [(Col.status, Value.str "completed"), (Col.gcs_url, Value.str url)]

/-- Result of the crawl-supervision code for one job: the job table after the
background work ends, and whether the job's scratch directory (the
`tempfile.mkdtemp` directory handed to the container) was removed. -/
structure CrawlOutcome where
  store : List Job
  cleaned : Bool
deriving Repr

/-- Failure epilogue used throughout the crawl supervision code:
`update_job(job_id, {"status": "failed", "progress": 0})`. -/
def failUpdate (store : List Job) (id : String) : List Job :=
  update_job store id [(Col.status, Value.str "failed"), (Col.progress, Value.int 0)]

/-- `handle_container_completion` in `main.py`, with the external
observations as parameters: whether `container.wait()` returned normally
(`waitOk`), the exit code it reported, the `.wacz` files found by walking the
scratch directory, and whether `save_binary_archive` succeeded (`saveOk`).
Any exception lands in the `except` clause (`status = failed, progress = 0`);
the `finally` clause always removes the scratch directory on this code path. -/
def handle_container_completion (store : List Job) (id now : String)
    (waitOk : Bool) (exitCode : Int) (waczFiles : List String) (saveOk : Bool)
    (pages depth : Int) : CrawlOutcome :=
  if ¬ waitOk then
    ⟨failUpdate store id, true⟩
  else if exitCode ≠ 0 then
    ⟨failUpdate store id, true⟩
  else
    let s1 := update_job store id [(Col.progress, Value.int 95)]
    match waczFiles with
    | [] => ⟨failUpdate s1 id, true⟩
    | _ :: _ =>
      if ¬ saveOk then
        ⟨failUpdate s1 id, true⟩
      else
        let filename := id.take 8 ++ ".wacz"
        ⟨update_job s1 id
            [(Col.status, Value.str "completed"),
             (Col.progress, Value.int 100),
             (Col.completed_at, Value.str now),
             (Col.archive_path, Value.str filename),
             (Col.local_path, Value.str (id ++ "/" ++ filename)),
             (Col.pages_archived, Value.int pages),
             (Col.current_depth, Value.int depth)],
          true⟩

/-- Externally observed course of one supervised crawl, abstracting the
container runtime:
* `launchFail` - `docker_client.containers.run` raised;
* `containerLost` - the initial `containers.get` raised, or reported a
  status other than `running`/`exited`, or the in-loop recovery found the
  container gone;
* `monitorException` - an unhandled exception in `monitor_container_progress`;
* `completion` - the container was observed to have exited and
  `handle_container_completion` ran, with the recorded observations. -/
inductive CrawlEvent where
  | launchFail
  | containerLost
  | monitorException
  | completion (waitOk : Bool) (exitCode : Int) (waczFiles : List String) (saveOk : Bool)

/-- `true` exactly when the event is a failure of the crawl (every
constructor except a fully successful completion). -/
def CrawlEvent.isFailure : CrawlEvent → Bool
  | CrawlEvent.launchFail => true
  | CrawlEvent.containerLost => true
  | CrawlEvent.monitorException => true
  | CrawlEvent.completion w e f s => ¬ w ∨ e ≠ 0 ∨ f.isEmpty ∨ ¬ s

/-- `true` exactly when the event reaches `handle_container_completion`,
whose `finally` clause is the only place the scratch directory is removed. -/
def CrawlEvent.reachesCompletion : CrawlEvent → Bool
  | CrawlEvent.completion _ _ _ _ => true
  | _ => false

/-- `run_browsertrix_crawler` together with its nested
`monitor_container_progress`, as the sequence of store updates performed on
the way to the given externally observed event.  Updates in source order:
`crawling`/10, 20, `preparing`/30, then on successful launch `crawling`/10
again before monitoring starts.  On `launchFail` the inner handler and the
outer `except` clause both write the failure update; none of the failure
paths outside `handle_container_completion` removes the scratch directory
(the outer `finally` is an explicit `pass`).  The best-effort log-scraping
progress updates inside the monitoring loop are advisory writes of
`progress`/`pages_archived`/`current_depth` only and are not modelled. -/
def run_browsertrix_crawler (store : List Job) (id now : String)
    (ev : CrawlEvent) (pages depth : Int) : CrawlOutcome :=
  let s1 := update_job store id [(Col.status, Value.str "crawling"), (Col.progress, Value.int 10)]
  let s2 := update_job s1 id [(Col.progress, Value.int 20)]
  let s3 := update_job s2 id [(Col.status, Value.str "preparing"), (Col.progress, Value.int 30)]
  match ev with
  | CrawlEvent.launchFail => ⟨failUpdate (failUpdate s3 id) id, false⟩
  | CrawlEvent.containerLost =>
    ⟨failUpdate (update_job s3 id
        [(Col.status, Value.str "crawling"), (Col.progress, Value.int 10)]) id, false⟩
  | CrawlEvent.monitorException =>
    ⟨failUpdate (update_job s3 id
        [(Col.status, Value.str "crawling"), (Col.progress, Value.int 10)]) id, false⟩
  | CrawlEvent.completion w e f s =>
    handle_container_completion
      (update_job s3 id [(Col.status, Value.str "crawling"), (Col.progress, Value.int 10)])
      id now w e f s pages depth

/-- Python `str.replace(pat, rep)` on character lists (leftmost,
non-overlapping, all occurrences), with explicit fuel so that the definition
is structurally recursive and kernel-evaluable.  An empty pattern acts as the
identity (the source only uses the pattern `"bytes="`). -/
def replaceAllFuel (pat rep : List Char) : Nat → List Char → List Char
  | _, [] => []
  | 0, l => l
  | fuel + 1, c :: rest =>
    if pat ≠ [] ∧ pat.isPrefixOf (c :: rest) = true then
      rep ++ replaceAllFuel pat rep fuel (List.drop pat.length (c :: rest))
    else
      c :: replaceAllFuel pat rep fuel rest

/-- Python `str.replace(pat, rep)`; fuel `l.length` suffices because each
step consumes at least one character. -/
def replaceAll (pat rep l : List Char) : List Char :=
  replaceAllFuel pat rep l.length l

/-- Python `str.split(sep)` for a one-character separator, which is how
`serve_archive` splits the stripped `Range` header on `"-"`:
`"".split("-") = [""]`, `"a-".split("-") = ["a", ""]`, and so on. -/
def splitOnChar (sep : Char) : List Char → List (List Char)
  | [] => [[]]
  | c :: rest =>
    if c = sep then
      [] :: splitOnChar sep rest
    else
      match splitOnChar sep rest with
      | [] => [[c]]
      | p :: ps => (c :: p) :: ps

/-- Digit-string value, most significant digit first. -/
def digitsVal (l : List Char) : Nat :=
  l.foldl (fun a c => 10 * a + (c.toNat - 48)) 0

/-- Characters `int()` strips around a numeral.  Header values reach the
handler decoded as latin-1, and the latin-1 characters CPython treats as
whitespace when parsing an `int` are exactly these twelve: the ASCII
whitespace characters, the separators `U+001C`-`U+001F`, the next-line
character `U+0085` and the no-break space `U+00A0`. -/
def pySpace (c : Char) : Bool :=
  c = ' ' || c = '\t' || c = '\n' || c = '\r' || c = '\x0b' || c = '\x0c' ||
  c = '\x1c' || c = '\x1d' || c = '\x1e' || c = '\x1f' || c = '\x85' || c = '\xa0'

/-- Leading and trailing whitespace stripped, as `int()` does before
parsing. -/
def pyStrip (l : List Char) : List Char :=
  ((l.dropWhile pySpace).reverse.dropWhile pySpace).reverse

/-- Continuation of Python's decimal-numeral grammar after an initial digit:
`(("_")? digit)*` - single underscores are permitted between digits only. -/
def pyNumTail : List Char → Bool
  | [] => true
  | ['_'] => false
  | '_' :: c :: rest => c.isDigit && pyNumTail (c :: rest)
  | c :: rest => c.isDigit && pyNumTail rest

/-- Python's decimal-numeral grammar `digit (("_")? digit)*`: non-empty,
starting with a digit, underscores only singly and between digits
(`1_0` parses, `_1`, `1_` and `1__0` raise `ValueError`). -/
def pyNumValid : List Char → Bool
  | [] => false
  | c :: rest => c.isDigit && pyNumTail rest

/-- Numeral accepted as a `Nat`, underscores ignored; `none` models a
`ValueError`.  In latin-1 the only Unicode decimal digits are the ASCII
digits, so `Char.isDigit` is the full digit set reachable here. -/
def digitsToNat (l : List Char) : Option Nat :=
  if pyNumValid l then some (digitsVal (l.filter fun c => c ≠ '_')) else none

/-- Python `int(s)`: surrounding whitespace is stripped, then an optional
sign followed by a decimal numeral with optional underscores between digits
(`int(" 2") = 2`, `int("1_0") = 10`); `none` models the `ValueError` raised
on anything else, including whitespace between the sign and the digits. -/
def pyInt (l : List Char) : Option Int :=
  match pyStrip l with
  | '-' :: rest => (digitsToNat rest).map fun n => -(n : Int)
  | '+' :: rest => (digitsToNat rest).map fun n => (n : Int)
  | rest => (digitsToNat rest).map fun n => (n : Int)

/-- `range_header.replace("bytes=", "").split("-")` from `serve_archive`. -/
def rangeParts (h : String) : List (List Char) :=
  splitOnChar '-' (replaceAll "bytes=".data [] h.data)

/-- `start = int(range_match[0]) if range_match[0] else 0`; `none` models the
`ValueError` path.  (`range_match` is never empty since `split` always
returns at least one piece.) -/
def parsedStart (parts : List (List Char)) : Option Int :=
  match parts with
  | [] => none
  | p :: _ => if p = [] then some 0 else pyInt p

/-- `end = int(range_match[1]) if range_match[1] else file_size - 1`; `none`
models both the `IndexError` (no second piece) and the `ValueError` path. -/
def parsedEnd (parts : List (List Char)) (fileSize : Int) : Option Int :=
  match parts with
  | _ :: p :: _ => if p = [] then some (fileSize - 1) else pyInt p
  | _ => none

/-- Response of `serve_archive` for a GET of an existing file, projected onto
status code, `Content-Length` and `Content-Range`. -/
inductive RangeResponse where
  | status416 (contentRange : String)
  | status206 (contentLength : Int) (contentRange : String)
  | fullFile (contentLength : Int)
deriving DecidableEq, Repr

/-- The range-handling logic of `serve_archive` (`GET
/api/serve/{job_id}/{filename}`) for an existing file of `fileSize` bytes:
no `Range` header serves the full file; a parsed range is rejected with 416
and `Content-Range: bytes */{size}` when `start >= file_size or end >=
file_size or start > end`, and otherwise answered with 206,
`Content-Length = end - start + 1` and `Content-Range: bytes
{start}-{end}/{size}`; a parse failure (`ValueError`/`IndexError`) falls
back to serving the full file. -/
def serve_archive_range (rangeHeader : Option String) (fileSize : Nat) : RangeResponse :=
  match rangeHeader with
  | none => RangeResponse.fullFile fileSize
  | some h =>
    let parts := rangeParts h
    match parsedStart parts, parsedEnd parts (fileSize : Int) with
    | some s, some e =>
      if s ≥ (fileSize : Int) ∨ e ≥ (fileSize : Int) ∨ s > e then
        RangeResponse.status416 ("bytes */" ++ toString fileSize)
      else
        RangeResponse.status206 (e - s + 1)
          ("bytes " ++ toString s ++ "-" ++ toString e ++ "/" ++ toString fileSize)
    | _, _ => RangeResponse.fullFile fileSize

/-- Order on SQLite values as used by `ORDER BY`: `NULL` first, then
numerics by value, then text in lexicographic (byte) order. -/
def Value.le : Value → Value → Prop
  | Value.null, _ => True
  | Value.int _, Value.null => False
  | Value.int m, Value.int n => m ≤ n
  | Value.int _, Value.str _ => True
  | Value.str _, Value.null => False
  | Value.str _, Value.int _ => False
  | Value.str s, Value.str t => s ≤ t

instance : ∀ a b : Value, Decidable (Value.le a b) := fun a b => by
  cases a <;> cases b <;> simp only [Value.le] <;> infer_instance

/-- Newest-first order on rows: `a` may precede `b` iff
`b.created_at ≤ a.created_at` in the SQLite value order. -/
def createdAtGe (a b : Job) : Prop :=
  Value.le b.created_at a.created_at

instance : DecidableRel createdAtGe := fun a b => by
  unfold createdAtGe; infer_instance

/-- `SQLiteJobManager.get_all_jobs`:
`SELECT * FROM archive_jobs ORDER BY created_at DESC` - the stored rows,
sorted newest first on the `created_at` column. -/
def get_all_jobs (store : List Job) : List Job :=
  List.insertionSort createdAtGe store

/-- Concrete job in status `preparing`, as left by the crawl launcher just
before container completion. -/
def c1job : Job :=
  { freshJob "c1" "https://c1.example" "2024-01-01T00:00:00" with
    status := Value.str "preparing", progress := Value.int 30 }

/-- Concrete job in status `completed`: not one of the three states the spec
allows retry from. -/
def c2job : Job :=
  { freshJob "c2" "https://c2.example" "2024-01-01T00:00:00" with
    status := Value.str "completed", progress := Value.int 100,
    completed_at := Value.str "2024-01-01T01:00:00",
    archive_path := Value.str "c2.wacz", local_path := Value.str "c2/c2.wacz" }

/-- Concrete job in the active status `crawling`. -/
def c3job : Job :=
  { freshJob "c3" "https://c3.example" "2024-01-01T00:00:00" with
    status := Value.str "crawling", progress := Value.int 10 }

/-- Concrete completed job that has already been published to GCS. -/
def c4job : Job :=
  { freshJob "c4" "https://c4.example" "2024-01-01T00:00:00" with
    status := Value.str "completed", progress := Value.int 100,
    archive_path := Value.str "c4.wacz", local_path := Value.str "c4/c4.wacz",
    gcs_url := Value.str "https://storage.googleapis.com/bucket/archives/c4.wacz" }

/-- Concrete failed job carrying non-default telemetry and a stale
`gcs_error` from an earlier publish attempt. -/
def c5job : Job :=
  { freshJob "c5" "https://c5.example" "2024-01-01T00:00:00" with
    status := Value.str "failed", pages_archived := Value.int 5,
    current_depth := Value.int 3, gcs_error := Value.str "old upload error" }

/-- Concrete completed job with a local artifact and no GCS URL. -/
def c6job : Job :=
  { freshJob "c6" "https://c6.example" "2024-01-01T00:00:00" with
    status := Value.str "completed", progress := Value.int 100,
    completed_at := Value.str "2024-01-01T01:00:00",
    archive_path := Value.str "c6.wacz", local_path := Value.str "c6/c6.wacz" }

/-- Concrete job in status `started`, about to be crawled. -/
def c7job : Job :=
  { freshJob "c7" "https://c7.example" "2024-01-01T00:00:00" with
    status := Value.str "started" }

/-- Concrete fresh jobs for the store-frame witness. -/
def jobA9 : Job := freshJob "a9" "https://a9.example" "2024-01-02T00:00:00"

def jobB9 : Job := freshJob "b9" "https://b9.example" "2024-01-01T00:00:00"

/-- Environment with the GCS library importable but neither
`GOOGLE_APPLICATION_CREDENTIALS` nor `GCS_BUCKET` set. -/
def noGcsEnv : GcsEnv := ⟨true, false, false⟩

theorem getCol_setCol_ne (c c' : Col) (v : Value) (j : Job) (h : c ≠ c') :
    getCol c (setCol c' v j) = getCol c j := by
  cases c <;> cases c' <;> first | rfl | exact (h rfl).elim

theorem applyUpdates_cons (u : Col × Value) (us : List (Col × Value)) (j : Job) :
    applyUpdates (u :: us) j = applyUpdates us (setCol u.1 u.2 j) := rfl

theorem getCol_applyUpdates_not_touched (us : List (Col × Value)) (j : Job) (c : Col)
    (h : c ∉ us.map Prod.fst) : getCol c (applyUpdates us j) = getCol c j := by
  induction us generalizing j with
  | nil => rfl
  | cons u us ih =>
    have hc : c ≠ u.1 := by
      intro he; exact h (by simp [he])
    have hm : c ∉ us.map Prod.fst := by
      intro hmem; exact h (by simp [hmem])
    rw [applyUpdates_cons, ih _ hm, getCol_setCol_ne _ _ _ _ hc]

theorem applyUpdates_job_id (us : List (Col × Value)) (j : Job)
    (h : Col.job_id ∉ us.map Prod.fst) : (applyUpdates us j).job_id = j.job_id :=
  getCol_applyUpdates_not_touched us j Col.job_id h

theorem get_job_update_job (store : List Job) (id : String) (us : List (Col × Value))
    (hid : Col.job_id ∉ us.map Prod.fst) :
    get_job (update_job store id us) id = (get_job store id).map (applyUpdates us) := by
  induction store with
  | nil => rfl
  | cons j rest ih =>
    by_cases h : j.job_id = Value.str id
    · have hpred : (applyUpdates us j).job_id = Value.str id := by
        rw [applyUpdates_job_id us j hid, h]
      simp only [update_job, List.map_cons, get_job, if_pos h]
      rw [List.find?_cons_of_pos _ (by simp [hpred]),
          List.find?_cons_of_pos _ (by simp [h])]
      rfl
    · simp only [update_job, List.map_cons, get_job, if_neg h]
      rw [List.find?_cons_of_neg _ (by simp [h]),
          List.find?_cons_of_neg _ (by simp [h])]
      exact ih

theorem get_job_update_of_some (store : List Job) (id : String) (us : List (Col × Value))
    (j : Job) (hid : Col.job_id ∉ us.map Prod.fst) (hj : get_job store id = some j) :
    get_job (update_job store id us) id = some (applyUpdates us j) := by
  rw [get_job_update_job store id us hid, hj]; rfl

theorem statusIn_eq_true_iff (j : Job) (ss : List String) :
    statusIn j ss = true ↔ ∃ s ∈ ss, j.status = Value.str s := by
  simp [statusIn, List.any_eq_true]

theorem append_ne_empty_left (s t : String) (hs : s.length ≠ 0) : s ++ t ≠ "" := by
  intro h
  have hl := congrArg String.length h
  rw [String.length_append] at hl
  have h0 : ("" : String).length = 0 := rfl
  rw [h0] at hl
  exact hs (by omega)

instance : IsTotal Job createdAtGe := by
  constructor
  intro a b
  unfold createdAtGe
  generalize a.created_at = x
  generalize b.created_at = y
  cases x <;> cases y <;> simp only [Value.le] <;>
    first | tauto | exact le_total _ _

instance : IsTrans Job createdAtGe := by
  constructor
  intro a b c hab hbc
  unfold createdAtGe at *
  generalize a.created_at = x at *
  generalize b.created_at = y at *
  generalize c.created_at = z at *
  cases x <;> cases y <;> cases z <;> simp only [Value.le] at * <;>
    first | tauto | exact le_trans hbc hab

/-- C8: the fetch-all operation of the Job Store (`get_all_jobs`,
`SELECT * FROM archive_jobs ORDER BY created_at DESC`) returns every stored
job row - the result is a permutation of the store - ordered newest first,
i.e. pairwise non-increasing in `created_at`, for every state of the store. -/
theorem get_all_jobs_newest_first (store : List Job) :
    (get_all_jobs store).Perm store ∧ (get_all_jobs store).Sorted createdAtGe :=
  ⟨List.perm_insertionSort createdAtGe store,
   List.sorted_insertionSort createdAtGe store⟩

/-- C9: `update_job(job_id, updates)` modifies only the columns named as keys
of `updates` in the row whose primary key equals `job_id`: a row at any
position whose `job_id` differs is returned unchanged at that position, and
the row at a matching position keeps the value of every column not named in
`updates`. -/
theorem update_job_frame (store : List Job) (id : String) (us : List (Col × Value))
    (i : Nat) (j : Job) (hi : store[i]? = some j) :
    (j.job_id ≠ Value.str id → (update_job store id us)[i]? = some j) ∧
    (∀ c : Col, c ∉ us.map Prod.fst →
      ∃ j', (update_job store id us)[i]? = some j' ∧ getCol c j' = getCol c j) := by
  have hmap : (update_job store id us)[i]? =
      some (if j.job_id = Value.str id then applyUpdates us j else j) := by
    simp [update_job, List.getElem?_map, hi]
  constructor
  · intro hne
    rw [hmap, if_neg hne]
  · intro c hc
    by_cases h : j.job_id = Value.str id
    · exact ⟨applyUpdates us j, by rw [hmap, if_pos h],
        getCol_applyUpdates_not_touched us j c hc⟩
    · exact ⟨j, by rw [hmap, if_neg h], rfl⟩

/-- Witness for C9 at a concrete two-row store: updating the `status` column
of row `a9` leaves row `b9` unchanged and leaves the `progress` column of
row `a9` unchanged. -/
theorem update_job_frame_w :
    ((jobB9.job_id ≠ Value.str "a9" →
        (update_job [jobA9, jobB9] "a9" [(Col.status, Value.str "failed")])[1]? = some jobB9) ∧
      (∀ c : Col, c ∉ [(Col.status, Value.str "failed")].map Prod.fst →
        ∃ j', (update_job [jobA9, jobB9] "a9" [(Col.status, Value.str "failed")])[1]? = some j' ∧
          getCol c j' = getCol c jobB9)) :=
  update_job_frame [jobA9, jobB9] "a9" [(Col.status, Value.str "failed")] 1 jobB9 (by decide)

/-- C3: for an existing job in one of the active statuses `started`,
`crawling`, `preparing`, `uploading_gcs`, both delete endpoints
(`DELETE /api/delete-archive/{job_id}` and `DELETE /api/delete/{job_id}`)
answer a 400 validation error and leave the store - hence the job's row -
unchanged; and either endpoint can answer success only when the status is
one of `completed`, `failed`, `gcs_upload_failed`, `stopped`. -/
theorem delete_guard (store : List Job) (id : String) (j : Job)
    (hj : get_job store id = some j) :
    (statusIn j ["started", "crawling", "preparing", "uploading_gcs"] = true →
      (∃ d, (delete_archive_api store id).resp = Except.error (ApiErr.badRequest d)) ∧
      (delete_archive_api store id).store = store ∧
      (∃ d, (delete_job_api store id).resp = Except.error (ApiErr.badRequest d)) ∧
      (delete_job_api store id).store = store) ∧
    (∀ b, (delete_archive_api store id).resp = Except.ok b →
      statusIn j ["completed", "failed", "gcs_upload_failed", "stopped"] = true) ∧
    (∀ b, (delete_job_api store id).resp = Except.ok b →
      statusIn j ["completed", "failed", "gcs_upload_failed", "stopped"] = true) := by
  refine ⟨?_, ?_, ?_⟩
  · intro hact
    rcases (statusIn_eq_true_iff j _).mp hact with ⟨s, hs, hstat⟩
    have hdel : ¬ statusIn j ["completed", "failed", "gcs_upload_failed", "stopped"] = true := by
      simp only [List.mem_cons, List.not_mem_nil, or_false] at hs
      rcases hs with rfl | rfl | rfl | rfl <;> simp [statusIn, hstat]
    have hfailed : ¬ j.status = Value.str "failed" := by
      simp only [List.mem_cons, List.not_mem_nil, or_false] at hs
      rcases hs with rfl | rfl | rfl | rfl <;> simp [hstat]
    refine ⟨⟨"Only completed, failed, or stopped jobs can be deleted", ?_⟩, ?_,
        ⟨"Only failed jobs can be deleted", ?_⟩, ?_⟩ <;>
      simp [delete_archive_api, delete_job_api, hj, hdel, hfailed]
  · intro b hb
    by_cases hdel : statusIn j ["completed", "failed", "gcs_upload_failed", "stopped"] = true
    · exact hdel
    · simp [delete_archive_api, hj, hdel] at hb
  · intro b hb
    by_cases hfailed : j.status = Value.str "failed"
    · simp [statusIn, hfailed]
    · simp [delete_job_api, hj, hfailed] at hb

/-- Witness for C3 at a concrete store holding one `crawling` job: the
delete-archive endpoint rejects with a 400 and the store is unchanged. -/
theorem delete_guard_w :
    (∃ d, (delete_archive_api [c3job] "c3").resp = Except.error (ApiErr.badRequest d)) ∧
    (delete_archive_api [c3job] "c3").store = [c3job] ∧
    (∃ d, (delete_job_api [c3job] "c3").resp = Except.error (ApiErr.badRequest d)) ∧
    (delete_job_api [c3job] "c3").store = [c3job] := by
  have h := delete_guard [c3job] "c3" c3job (by decide)
  exact h.1 (by decide)

/-- C4: for an existing job, a publish request (`POST /api/upload-gcs`) is
rejected with a 400 validation error whenever `gcs_url` is already set
(truthy), regardless of the job's status, and also whenever no `local_path`
artifact is recorded; in both rejection cases no background upload task is
started and the store - hence the job's row - is unchanged. -/
theorem upload_gcs_reject (env : GcsEnv) (store : List Job) (id : String) (j : Job)
    (hj : get_job store id = some j)
    (hcase : isTruthy j.gcs_url = true ∨ isTruthy j.local_path = false) :
    (∃ d, (upload_to_gcs env store id).resp = Except.error (ApiErr.badRequest d)) ∧
    (upload_to_gcs env store id).store = store ∧
    (upload_to_gcs env store id).taskStarted = false := by
  by_cases hstat : statusIn j ["completed", "gcs_upload_failed"] = true
  · by_cases hgcs : isTruthy j.gcs_url = true
    · refine ⟨⟨"Archive already uploaded to GCS", ?_⟩, ?_, ?_⟩ <;>
        simp [upload_to_gcs, hj, hstat, hgcs]
    · have hloc : isTruthy j.local_path = false := by tauto
      refine ⟨⟨"No local archive file found", ?_⟩, ?_, ?_⟩ <;>
        simp [upload_to_gcs, hj, hstat, hgcs, hloc]
  · refine ⟨⟨"Only completed jobs can be uploaded to GCS", ?_⟩, ?_, ?_⟩ <;>
      simp [upload_to_gcs, hj, hstat]

/-- Witness for C4 at a concrete completed job whose `gcs_url` is already
set: the publish request is rejected with a 400, the store is unchanged and
no background task starts. -/
theorem upload_gcs_reject_w :
    (∃ d, (upload_to_gcs noGcsEnv [c4job] "c4").resp = Except.error (ApiErr.badRequest d)) ∧
    (upload_to_gcs noGcsEnv [c4job] "c4").store = [c4job] ∧
    (upload_to_gcs noGcsEnv [c4job] "c4").taskStarted = false :=
  upload_gcs_reject noGcsEnv [c4job] "c4" c4job (by decide) (Or.inl (by decide))

/-- C2 counterexample: `c2job` exists in the store with status `completed`,
which is none of `failed`/`gcs_upload_failed`/`stopped`, yet the retry
request is accepted (`200`, body `restarted`), a crawl task is scheduled and
the stored row is changed - `retry_archive` has no status guard, so the
claim "retry is rejected with a validation error and leaves the row
unchanged" is false at this input. -/
theorem retry_no_status_guard_cex :
    c2job.status = Value.str "completed" ∧
    (retry_archive true [c2job] "c2" "2024-02-02T00:00:00").resp = Except.ok "restarted" ∧
    (retry_archive true [c2job] "c2" "2024-02-02T00:00:00").taskStarted = true ∧
    (retry_archive true [c2job] "c2" "2024-02-02T00:00:00").store ≠ [c2job] := by
  refine ⟨rfl, rfl, rfl, by decide⟩

/-- C2 (amended): the retry endpoint performs no status check - for every
existing job, whatever its status, retry (with Docker available) is accepted
with body `restarted`, schedules a crawl task and resets the row to status
`started`; the only rejections are 404 for a missing job and 503 when
Docker is unavailable. -/
theorem retry_any_existing_job :
    (∀ (store : List Job) (id now : String) (j : Job), get_job store id = some j →
      (retry_archive true store id now).resp = Except.ok "restarted" ∧
      (retry_archive true store id now).taskStarted = true ∧
      ∃ j', get_job (retry_archive true store id now).store id = some j' ∧
        j'.status = Value.str "started") ∧
    (∀ (store : List Job) (id now : String), get_job store id = none →
      (retry_archive true store id now).resp = Except.error (ApiErr.notFound "Job not found") ∧
      (retry_archive true store id now).store = store ∧
      (retry_archive true store id now).taskStarted = false) ∧
    (∀ (store : List Job) (id now : String),
      (retry_archive false store id now).resp = Except.error (ApiErr.unavailable
        "Docker is not available. Please ensure Docker is running and accessible.") ∧
      (retry_archive false store id now).store = store ∧
      (retry_archive false store id now).taskStarted = false) := by
  refine ⟨?_, ?_, ?_⟩
  · intro store id now j hj
    have hid : Col.job_id ∉ (retryUpdates now).map Prod.fst := by simp [retryUpdates]
    refine ⟨by simp [retry_archive, hj], by simp [retry_archive, hj], ?_⟩
    refine ⟨applyUpdates (retryUpdates now) j, ?_, ?_⟩
    · have : (retry_archive true store id now).store = update_job store id (retryUpdates now) := by
        simp [retry_archive, hj]
      rw [this]
      exact get_job_update_of_some store id (retryUpdates now) j hid hj
    · simp [applyUpdates, retryUpdates, setCol]
  · intro store id now hj
    refine ⟨?_, ?_, ?_⟩ <;> simp [retry_archive, hj]
  · intro store id now
    refine ⟨rfl, rfl, rfl⟩

/-- Witness for C2 (amended) at the concrete store holding `c2job`. -/
theorem retry_any_existing_job_w :
    (retry_archive true [c2job] "c2" "2024-02-02T00:00:00").resp = Except.ok "restarted" ∧
    ∃ j', get_job (retry_archive true [c2job] "c2" "2024-02-02T00:00:00").store "c2" = some j' ∧
      j'.status = Value.str "started" := by
  have h := retry_any_existing_job.1 [c2job] "c2" "2024-02-02T00:00:00" c2job (by decide)
  exact ⟨h.1, h.2.2⟩

/-- C5 counterexample: retrying the failed job `c5job` (which carries
`pages_archived = 5`, `current_depth = 3` and a stale `gcs_error`) leaves
`pages_archived = 5` in the stored row, while a freshly created job has
`pages_archived = 0`; the retried row is therefore not in the identical
initial shape of a fresh job, contradicting the claim. -/
theorem retry_failed_not_fresh_cex :
    c5job.status = Value.str "failed" ∧
    ((retry_archive true [c5job] "c5" "2024-03-03T00:00:00").store.map
        fun j => j.pages_archived) = [Value.int 5] ∧
    (freshJob "c5" "https://c5.example" "2024-03-03T00:00:00").pages_archived = Value.int 0 := by
  refine ⟨rfl, by decide, rfl⟩

/-- C5 (amended): a successful retry of a `failed` job sets status to
`started`, resets `progress` to 0, refreshes `created_at`, clears
`completed_at`, `archive_path` and `local_path`, and overwrites
`crawler_type`/`crawler_reason` with fixed retry constants; it leaves
`job_id`, `url`, `complexity_score`, `gcs_url`, `gcs_error`,
`pages_archived` and `current_depth` unchanged, so the resulting row may
differ from a fresh job's initial shape in the telemetry and GCS-error
fields (and does differ in `crawler_reason`). -/
theorem retry_failed_reset (store : List Job) (id now : String) (j : Job)
    (hj : get_job store id = some j) (hst : j.status = Value.str "failed") :
    ∃ j', get_job (retry_archive true store id now).store id = some j' ∧
      j'.status = Value.str "started" ∧
      j'.progress = Value.int 0 ∧
      j'.created_at = Value.str now ∧
      j'.completed_at = Value.null ∧
      j'.archive_path = Value.null ∧
      j'.local_path = Value.null ∧
      j'.crawler_type = Value.str "browsertrix" ∧
      j'.crawler_reason = Value.str "Professional web archiving with browsertrix-crawler" ∧
      j'.job_id = j.job_id ∧
      j'.url = j.url ∧
      j'.complexity_score = j.complexity_score ∧
      j'.gcs_url = j.gcs_url ∧
      j'.gcs_error = j.gcs_error ∧
      j'.pages_archived = j.pages_archived ∧
      j'.current_depth = j.current_depth := by
  have hid : Col.job_id ∉ (retryUpdates now).map Prod.fst := by simp [retryUpdates]
  have hstore : (retry_archive true store id now).store = update_job store id (retryUpdates now) := by
    simp [retry_archive, hj]
  refine ⟨applyUpdates (retryUpdates now) j, ?_, ?_⟩
  · rw [hstore]
    exact get_job_update_of_some store id (retryUpdates now) j hid hj
  · refine ⟨?_, ?_, ?_, ?_, ?_, ?_, ?_, ?_, ?_, ?_, ?_, ?_, ?_, ?_, ?_⟩ <;>
      simp [applyUpdates, retryUpdates, setCol]

/-- Witness for C5 (amended) at the concrete failed job `c5job`. -/
theorem retry_failed_reset_w :
    ∃ j', get_job (retry_archive true [c5job] "c5" "2024-03-04T00:00:00").store "c5" = some j' ∧
      j'.status = Value.str "started" ∧ j'.pages_archived = Value.int 5 := by
  obtain ⟨j', h1, h2, hrest⟩ :=
    retry_failed_reset [c5job] "c5" "2024-03-04T00:00:00" c5job (by decide) rfl
  refine ⟨j', h1, h2, ?_⟩
  have hp := hrest.2.2.2.2.2.2.2.2.2.2.2.2.1
  rw [hp]; rfl

theorem handle_completion_fail_aux (store : List Job) (id now : String)
    (waitOk : Bool) (exitCode : Int) (waczFiles : List String) (saveOk : Bool)
    (pages depth : Int) (j : Job) (hj : get_job store id = some j)
    (hfail : ¬ waitOk = true ∨ exitCode ≠ 0 ∨ waczFiles = [] ∨ ¬ saveOk = true) :
    ∃ j', get_job (handle_container_completion store id now waitOk exitCode
        waczFiles saveOk pages depth).store id = some j' ∧
      j'.status = Value.str "failed" ∧ j'.progress = Value.int 0 ∧
      (handle_container_completion store id now waitOk exitCode
        waczFiles saveOk pages depth).cleaned = true := by
  have hfail95 : ∀ s : List Job, ∀ jx : Job, get_job s id = some jx →
      ∃ j', get_job (failUpdate s id) id = some j' ∧
        j'.status = Value.str "failed" ∧ j'.progress = Value.int 0 := by
    intro s jx hx
    refine ⟨applyUpdates [(Col.status, Value.str "failed"), (Col.progress, Value.int 0)] jx, ?_, ?_, ?_⟩
    · exact get_job_update_of_some s id _ jx (by decide) hx
    · rfl
    · rfl
  cases hw : waitOk with
  | false =>
    have := hfail95 store j hj
    simpa [handle_container_completion] using this
  | true =>
    by_cases he : exitCode ≠ 0
    · have := hfail95 store j hj
      simpa [handle_container_completion, he] using this
    · have h95 : get_job (update_job store id [(Col.progress, Value.int 95)]) id =
          some (applyUpdates [(Col.progress, Value.int 95)] j) :=
        get_job_update_of_some store id _ j (by decide) hj
      cases hwz : waczFiles with
      | nil =>
        have := hfail95 _ _ h95
        simpa [handle_container_completion, he] using this
      | cons f fs =>
        have hsv : ¬ saveOk = true := by
          rcases hfail with h | h | h | h
          · rw [hw] at h; exact absurd rfl h
          · exact absurd h he
          · rw [hwz] at h; exact absurd h (by simp)
          · exact h
        have := hfail95 _ _ h95
        simpa [handle_container_completion, he, hsv] using this

/-- C1: when `container.wait()` reports a non-zero exit code, or a zero exit
code but no `.wacz` artifact is found in the scratch directory,
`handle_container_completion` leaves the job with status `failed` and
progress 0 - in particular the status is never set to `completed`. -/
theorem completion_failure_sets_failed (store : List Job) (id now : String)
    (exitCode : Int) (waczFiles : List String) (saveOk : Bool)
    (pages depth : Int) (j : Job) (hj : get_job store id = some j)
    (hfail : exitCode ≠ 0 ∨ waczFiles = []) :
    ∃ j', get_job (handle_container_completion store id now true exitCode
        waczFiles saveOk pages depth).store id = some j' ∧
      j'.status = Value.str "failed" ∧ j'.progress = Value.int 0 ∧
      j'.status ≠ Value.str "completed" := by
  obtain ⟨j', h1, h2, h3, -⟩ :=
    handle_completion_fail_aux store id now true exitCode waczFiles saveOk pages depth j hj
      (by tauto)
  exact ⟨j', h1, h2, h3, by rw [h2]; decide⟩

/-- Witness for C1: at a concrete store holding the `preparing` job `c1job`,
a container exit with code 1 leaves the row failed with progress 0. -/
theorem completion_failure_sets_failed_w :
    ∃ j', get_job (handle_container_completion [c1job] "c1" "2024-01-01T02:00:00" true 1
        [] true 0 1).store "c1" = some j' ∧
      j'.status = Value.str "failed" ∧ j'.progress = Value.int 0 ∧
      j'.status ≠ Value.str "completed" :=
  completion_failure_sets_failed [c1job] "c1" "2024-01-01T02:00:00" 1 [] true 0 1 c1job
    (by decide) (Or.inl (by decide))

/-- C7 counterexample: on the container-launch-failure path the job is
marked `failed`, but the scratch directory is not removed (`cleaned =
false`), contradicting "on any failure ... still clean up the scratch
directory"; only the paths that reach `handle_container_completion` run the
`finally` clause that removes it. -/
theorem crawl_failure_no_cleanup_cex :
    CrawlEvent.launchFail.isFailure = true ∧
    ((run_browsertrix_crawler [c7job] "c7" "2024-01-01T02:00:00"
        CrawlEvent.launchFail 0 1).store.map fun j => j.status) = [Value.str "failed"] ∧
    (run_browsertrix_crawler [c7job] "c7" "2024-01-01T02:00:00"
        CrawlEvent.launchFail 0 1).cleaned = false := by
  refine ⟨rfl, by decide, rfl⟩

/-- C7 (amended): on every failure path of the crawl - non-zero container
exit, missing artifact, container launch error, container lost, or an
exception in the monitoring loop - the job is transitioned to `failed` with
progress 0; the scratch directory is removed exactly on the paths that
reach `handle_container_completion` (exit-code/artifact/save failures), and
is not removed on the launch-failure, container-lost and
monitoring-exception paths. -/
theorem crawl_failure_paths (store : List Job) (id now : String) (ev : CrawlEvent)
    (pages depth : Int) (j : Job) (hj : get_job store id = some j)
    (hfail : ev.isFailure = true) :
    ∃ j', get_job (run_browsertrix_crawler store id now ev pages depth).store id = some j' ∧
      j'.status = Value.str "failed" ∧ j'.progress = Value.int 0 ∧
      (run_browsertrix_crawler store id now ev pages depth).cleaned = ev.reachesCompletion := by
  have e1 := get_job_update_of_some store id
    [(Col.status, Value.str "crawling"), (Col.progress, Value.int 10)] j (by decide) hj
  have e2 := get_job_update_of_some _ id [(Col.progress, Value.int 20)] _ (by decide) e1
  have e3 := get_job_update_of_some _ id
    [(Col.status, Value.str "preparing"), (Col.progress, Value.int 30)] _ (by decide) e2
  cases ev with
  | launchFail =>
    have e4 := get_job_update_of_some _ id
      [(Col.status, Value.str "failed"), (Col.progress, Value.int 0)] _ (by decide) e3
    have e5 := get_job_update_of_some _ id
      [(Col.status, Value.str "failed"), (Col.progress, Value.int 0)] _ (by decide) e4
    exact ⟨_, by simpa [run_browsertrix_crawler, failUpdate] using e5, rfl, rfl, rfl⟩
  | containerLost =>
    have e4 := get_job_update_of_some _ id
      [(Col.status, Value.str "crawling"), (Col.progress, Value.int 10)] _ (by decide) e3
    have e5 := get_job_update_of_some _ id
      [(Col.status, Value.str "failed"), (Col.progress, Value.int 0)] _ (by decide) e4
    exact ⟨_, by simpa [run_browsertrix_crawler, failUpdate] using e5, rfl, rfl, rfl⟩
  | monitorException =>
    have e4 := get_job_update_of_some _ id
      [(Col.status, Value.str "crawling"), (Col.progress, Value.int 10)] _ (by decide) e3
    have e5 := get_job_update_of_some _ id
      [(Col.status, Value.str "failed"), (Col.progress, Value.int 0)] _ (by decide) e4
    exact ⟨_, by simpa [run_browsertrix_crawler, failUpdate] using e5, rfl, rfl, rfl⟩
  | completion w e f s =>
    have e4 := get_job_update_of_some _ id
      [(Col.status, Value.str "crawling"), (Col.progress, Value.int 10)] _ (by decide) e3
    have hfail' : ¬ w = true ∨ e ≠ 0 ∨ f = [] ∨ ¬ s = true := by
      simp only [CrawlEvent.isFailure, decide_eq_true_eq, List.isEmpty_iff] at hfail
      tauto
    obtain ⟨j', h1, h2, h3, h4⟩ :=
      handle_completion_fail_aux _ id now w e f s pages depth _ e4 hfail'
    refine ⟨j', ?_, h2, h3, ?_⟩
    · simpa [run_browsertrix_crawler] using h1
    · simpa [run_browsertrix_crawler, CrawlEvent.reachesCompletion] using h4

/-- Witness for C7 (amended) at the concrete `started` job `c7job` and a
monitoring-loop exception: the row ends failed with progress 0 and the
scratch directory is not cleaned. -/
theorem crawl_failure_paths_w :
    ∃ j', get_job (run_browsertrix_crawler [c7job] "c7" "2024-01-01T03:00:00"
        CrawlEvent.monitorException 0 1).store "c7" = some j' ∧
      j'.status = Value.str "failed" ∧ j'.progress = Value.int 0 ∧
      (run_browsertrix_crawler [c7job] "c7" "2024-01-01T03:00:00"
        CrawlEvent.monitorException 0 1).cleaned = CrawlEvent.monitorException.reachesCompletion :=
  crawl_failure_paths [c7job] "c7" "2024-01-01T03:00:00" CrawlEvent.monitorException 0 1 c7job
    (by decide) rfl

/-- C6 counterexample: publish invoked on the `completed` job `c6job` (local
artifact present, `gcs_url` null) with neither `GOOGLE_APPLICATION_CREDENTIALS`
nor `GCS_BUCKET` configured is rejected synchronously with a 503 by the
handler: no background upload task starts, the store is unchanged and the
job stays `completed` - it does not transition to `gcs_upload_failed`,
contradicting the claimed scenario. -/
theorem publish_no_creds_cex :
    c6job.status = Value.str "completed" ∧
    isTruthy c6job.local_path = true ∧
    c6job.gcs_url = Value.null ∧
    (upload_to_gcs noGcsEnv [c6job] "c6").resp = Except.error (ApiErr.unavailable
      "Google Cloud Storage is not configured. Please set GOOGLE_APPLICATION_CREDENTIALS and GCS_BUCKET environment variables.") ∧
    (upload_to_gcs noGcsEnv [c6job] "c6").taskStarted = false ∧
    (upload_to_gcs noGcsEnv [c6job] "c6").store = [c6job] := by
  refine ⟨rfl, rfl, rfl, rfl, rfl, rfl⟩

/-- C6 (amended): with neither credentials nor bucket configured, the
synchronous publish handler rejects with a 503 and the job row is untouched
(it stays `completed`); and whenever the `upload_archive_to_gcs` background
task does run and fails at any stage - library missing, both configuration
variables unset, or the SDK client creation, upload, or make-public call
raising - the job transitions to `gcs_upload_failed` with a non-empty
`gcs_error`, and `gcs_url` remains null (unchanged from null). -/
theorem publish_failure_behavior :
    (∀ (env : GcsEnv) (store : List Job) (id : String) (j : Job),
      env.libInstalled = true → env.credsConfigured = false → env.bucketConfigured = false →
      get_job store id = some j →
      statusIn j ["completed", "gcs_upload_failed"] = true →
      isTruthy j.gcs_url = false → isTruthy j.local_path = true →
      (upload_to_gcs env store id).resp = Except.error (ApiErr.unavailable
        "Google Cloud Storage is not configured. Please set GOOGLE_APPLICATION_CREDENTIALS and GCS_BUCKET environment variables.") ∧
      (upload_to_gcs env store id).store = store ∧
      (upload_to_gcs env store id).taskStarted = false) ∧
    (∀ (env : GcsEnv) (ext : GcsUploadExt) (store : List Job) (id : String) (j : Job),
      get_job store id = some j → j.gcs_url = Value.null →
      (env.libInstalled = false ∨ (env.credsConfigured = false ∧ env.bucketConfigured = false) ∨
        (∃ m, ext = GcsUploadExt.clientRaise m) ∨ (∃ m, ext = GcsUploadExt.uploadRaise m) ∨
        (∃ m, ext = GcsUploadExt.makePublicRaise m)) →
      ∃ j', get_job (upload_archive_to_gcs env ext store id) id = some j' ∧
        j'.status = Value.str "gcs_upload_failed" ∧
        (∃ m, j'.gcs_error = Value.str m ∧ m ≠ "") ∧
        j'.gcs_url = Value.null) := by
  constructor
  · intro env store id j hlib hcreds hbucket hj hstat hgcs hloc
    obtain ⟨l, c, b⟩ := env
    simp only at hlib hcreds hbucket
    subst hlib; subst hcreds; subst hbucket
    refine ⟨?_, ?_, ?_⟩ <;> simp [upload_to_gcs, hj, hstat, hgcs, hloc]
  · intro env ext store id j hj hnull hfail
    have e1 := get_job_update_of_some store id
      [(Col.status, Value.str "uploading_gcs")] j (by decide) hj
    have e2 := get_job_update_of_some _ id [(Col.progress, Value.int 50)] _ (by decide) e1
    have e3 := get_job_update_of_some _ id [(Col.progress, Value.int 90)] _ (by decide) e2
    have hfailrow : ∀ (s : List Job) (jx : Job) (m : String), get_job s id = some jx →
        jx.gcs_url = Value.null → m.length ≠ 0 →
        ∃ j', get_job (gcsFail s id m) id = some j' ∧
          j'.status = Value.str "gcs_upload_failed" ∧
          (∃ m', j'.gcs_error = Value.str m' ∧ m' ≠ "") ∧
          j'.gcs_url = Value.null := by
      intro s jx m hx hxnull hm
      refine ⟨applyUpdates [(Col.status, Value.str "gcs_upload_failed"),
          (Col.gcs_error, Value.str m)] jx, ?_, rfl, ⟨m, rfl, ?_⟩, ?_⟩
      · exact get_job_update_of_some s id _ jx (by simp) hx
      · intro hme
        exact hm (by rw [hme]; rfl)
      · simpa [applyUpdates, setCol] using hxnull
    have h1null : (applyUpdates [(Col.status, Value.str "uploading_gcs")] j).gcs_url
        = Value.null := by simpa [applyUpdates, setCol] using hnull
    have h2null : (applyUpdates [(Col.progress, Value.int 50)]
        (applyUpdates [(Col.status, Value.str "uploading_gcs")] j)).gcs_url
        = Value.null := by simpa [applyUpdates, setCol] using hnull
    have h3null : (applyUpdates [(Col.progress, Value.int 90)]
        (applyUpdates [(Col.progress, Value.int 50)]
          (applyUpdates [(Col.status, Value.str "uploading_gcs")] j))).gcs_url
        = Value.null := by simpa [applyUpdates, setCol] using hnull
    have hlen : ∀ m : String, ("GCS upload failed: " ++ m).length ≠ 0 := by
      intro m
      rw [String.length_append]
      have h19 : ("GCS upload failed: " : String).length = 19 := rfl
      omega
    obtain ⟨l, c, b⟩ := env
    cases l with
    | false =>
      have := hfailrow _ _
        "Google Cloud Storage library not installed. Run: pip install google-cloud-storage"
        e1 h1null (by decide)
      simpa [upload_archive_to_gcs] using this
    | true =>
      cases c with
      | false =>
        cases b with
        | false =>
          have := hfailrow _ _ "GCS upload failed: GCS credentials or bucket not configured"
            e1 h1null (by decide)
          simpa [upload_archive_to_gcs] using this
        | true =>
          rcases hfail with h | h | ⟨m, rfl⟩ | ⟨m, rfl⟩ | ⟨m, rfl⟩
          · exact absurd h (by simp)
          · exact absurd h.2 (by simp)
          · have := hfailrow _ _ ("GCS upload failed: " ++ m) e1 h1null (hlen m)
            simpa [upload_archive_to_gcs] using this
          · have := hfailrow _ _ ("GCS upload failed: " ++ m) e2 h2null (hlen m)
            simpa [upload_archive_to_gcs] using this
          · have := hfailrow _ _ ("GCS upload failed: " ++ m) e3 h3null (hlen m)
            simpa [upload_archive_to_gcs] using this
      | true =>
        rcases hfail with h | h | ⟨m, rfl⟩ | ⟨m, rfl⟩ | ⟨m, rfl⟩
        · exact absurd h (by simp)
        · exact absurd h.1 (by simp)
        · have := hfailrow _ _ ("GCS upload failed: " ++ m) e1 h1null (hlen m)
          simpa [upload_archive_to_gcs] using this
        · have := hfailrow _ _ ("GCS upload failed: " ++ m) e2 h2null (hlen m)
          simpa [upload_archive_to_gcs] using this
        · have := hfailrow _ _ ("GCS upload failed: " ++ m) e3 h3null (hlen m)
          simpa [upload_archive_to_gcs] using this

/-- Witness for C6 (amended): with a bucket configured but no credentials,
the SDK client creation raises and the background task leaves the concrete
job `gcs_upload_failed` with a non-empty error and a null `gcs_url`. -/
theorem publish_failure_behavior_w :
    ∃ j', get_job (upload_archive_to_gcs ⟨true, false, true⟩
        (GcsUploadExt.clientRaise "Your default credentials were not found")
        [c6job] "c6") "c6" = some j' ∧
      j'.status = Value.str "gcs_upload_failed" ∧
      (∃ m, j'.gcs_error = Value.str m ∧ m ≠ "") ∧
      j'.gcs_url = Value.null :=
  publish_failure_behavior.2 ⟨true, false, true⟩
    (GcsUploadExt.clientRaise "Your default credentials were not found") [c6job] "c6" c6job
    (by decide) rfl (Or.inr (Or.inr (Or.inl ⟨_, rfl⟩)))

/-- C10: for a GET of an existing file of size `N` with a `Range` header,
with `start` and `end` as parsed by the source (`parsedStart`/`parsedEnd`
over the stripped, dash-split header): if `start > end`, `start >= N` or
`end >= N` the response is 416 with `Content-Range: bytes */N`; otherwise it
is 206 with `Content-Length = end - start + 1` and `Content-Range: bytes
start-end/N`; a missing end piece defaults to `N - 1` and a missing start
piece to `0`; and a syntactically unparsable range (`ValueError` or
`IndexError` in the source, i.e. a `none` parse) falls back to serving the
full file with `Content-Length N`. -/
theorem serve_archive_range_spec :
    (∀ (N : Nat) (h : String) (s e : Int),
        parsedStart (rangeParts h) = some s →
        parsedEnd (rangeParts h) (N : Int) = some e →
        serve_archive_range (some h) N =
          if s > e ∨ s ≥ (N : Int) ∨ e ≥ (N : Int) then
            RangeResponse.status416 ("bytes */" ++ toString N)
          else
            RangeResponse.status206 (e - s + 1)
              ("bytes " ++ toString s ++ "-" ++ toString e ++ "/" ++ toString N)) ∧
    (∀ (p : List Char) (ps : List (List Char)) (N : Int),
        parsedEnd (p :: [] :: ps) N = some (N - 1)) ∧
    (∀ ps : List (List Char), parsedStart ([] :: ps) = some 0) ∧
    (∀ (N : Nat) (h : String),
        parsedStart (rangeParts h) = none ∨ parsedEnd (rangeParts h) (N : Int) = none →
        serve_archive_range (some h) N = RangeResponse.fullFile (N : Int)) := by
  refine ⟨?_, ?_, ?_, ?_⟩
  · intro N h s e hs he
    by_cases hc : s > e ∨ s ≥ (N : Int) ∨ e ≥ (N : Int)
    · rw [if_pos hc]
      have hc' : s ≥ (N : Int) ∨ e ≥ (N : Int) ∨ s > e := by tauto
      simp [serve_archive_range, hs, he, hc']
    · rw [if_neg hc]
      have hc' : ¬ (s ≥ (N : Int) ∨ e ≥ (N : Int) ∨ s > e) := by tauto
      simp only [serve_archive_range, hs, he]
      rw [if_neg hc']
  · intro p ps N
    simp [parsedEnd]
  · intro ps
    rfl
  · intro N h hnone
    rcases hnone with hs | he
    · simp [serve_archive_range, hs]
    · rcases hps : parsedStart (rangeParts h) with _ | s
      · simp [serve_archive_range, hps]
      · simp [serve_archive_range, hps, he]

/-- Witness for C10 at concrete headers: a valid range, a whitespace-padded
numeral (`int(" 2") = 2`) and an underscored numeral (`int("1_0") = 10`)
both parsed to a 206 exactly as Python does, a range past the end of the
file with a defaulted end piece, and an unparsable range. -/
theorem serve_archive_range_spec_w :
    serve_archive_range (some "bytes=2-5") 10 = RangeResponse.status206 4 "bytes 2-5/10" ∧
    serve_archive_range (some "bytes= 2-5") 10 = RangeResponse.status206 4 "bytes 2-5/10" ∧
    serve_archive_range (some "bytes=1_0-1_2") 20 = RangeResponse.status206 3 "bytes 10-12/20" ∧
    serve_archive_range (some "bytes=12-") 10 = RangeResponse.status416 "bytes */10" ∧
    serve_archive_range (some "bytes=abc") 10 = RangeResponse.fullFile 10 := by
  refine ⟨?_, ?_, ?_, ?_, ?_⟩
  · have h := serve_archive_range_spec.1 10 "bytes=2-5" 2 5 (by decide) (by decide)
    rw [h]; decide
  · have h := serve_archive_range_spec.1 10 "bytes= 2-5" 2 5 (by decide) (by decide)
    rw [h]; decide
  · have h := serve_archive_range_spec.1 20 "bytes=1_0-1_2" 10 12 (by decide) (by decide)
    rw [h]; decide
  · have h := serve_archive_range_spec.1 10 "bytes=12-" 12 9 (by decide) (by decide)
    rw [h]; decide
  · exact serve_archive_range_spec.2.2.2 10 "bytes=abc" (Or.inl (by decide))

end WebArchive
